import Mathlib

/-!
Verification of the process-sales webhook route (app/api/process-sales/route.js).

The route is a single request handler built from three helpers:
checkPhoneNumberInCTM (CTM lookup client), determineAttribution
(attribution resolver) and sendToGA4 (GA4 forwarder), orchestrated by POST.
We embed each function shallowly: network effects become explicit inputs
(the response the outside world would have produced), the clock becomes an
explicit timestamp argument, and the outbound calls the handler makes are
recorded in a trace so that claims about which external services were
contacted are statable.
-/

namespace ProcessSales

/-- JavaScript truthiness of an optional string field: absent (undefined or
null) and the empty string are falsy; any other string is truthy. -/
def strTruthy : Option String → Bool
  | none => false
  | some s => s ≠ ""

/-- The nested paid object of a CTM call record, with its three optional
string fields. -/
structure PaidInfo where
  source : Option String
  medium : Option String
  campaign : Option String
deriving DecidableEq, Repr

/-- One call entry returned by CTM search; the paid object may be absent. -/
structure CallRecord where
  paid : Option PaidInfo
deriving DecidableEq, Repr

/-- The attribution triple produced by the resolver, each field nullable. -/
structure AttributionResult where
  source : Option String
  medium : Option String
  campaign : Option String
deriving DecidableEq, Repr

/-- JavaScript or-default on an optional string: a falsy value (absent or
empty string) yields the default, mirroring the source expression
x || d. -/
def jsOrDefault (x : Option String) (d : String) : String :=
  match x with
  | none => d
  | some s => if s = "" then d else s

/-- JavaScript or-null on an optional string: a falsy value (absent or
empty string) yields none, mirroring the source expression x || null. -/
def jsOrNull (x : Option String) : Option String :=
  match x with
  | none => none
  | some s => if s = "" then none else some s

/-- Embeds determineAttribution from route.js. The input is an optional
list: none stands for a value that is not an array (null in the handler),
and the Array.isArray / length guard of the source maps a missing or empty
list to the all-null result. The loop returns, for the first record whose
paid.source is truthy, its source, its medium unchanged, and its campaign
with falsy values replaced by null. -/
def determineAttribution (calls : Option (List CallRecord)) : AttributionResult :=
  match calls with
  | none => { source := none, medium := none, campaign := none }
  | some l => loop l
where
  /-- The for-of loop of determineAttribution over the calls array. -/
  loop : List CallRecord → AttributionResult
    | [] => { source := none, medium := none, campaign := none }
    | c :: rest =>
      match c.paid with
      | some p =>
        if strTruthy p.source then
          { source := p.source, medium := p.medium, campaign := jsOrNull p.campaign }
        else
          loop rest
      | none => loop rest

/-- Spec-side predicate: a call record qualifies when its paid.source is
present and non-empty. -/
def qualifies (c : CallRecord) : Bool :=
  match c.paid with
  | some p => strTruthy p.source
  | none => false

/-- Spec-side extraction of the attribution fields of a qualifying record:
source and medium as stored, campaign replaced by null when not set. -/
def extractAttribution (c : CallRecord) : AttributionResult :=
  match c.paid with
  | some p => { source := p.source, medium := p.medium, campaign := jsOrNull p.campaign }
  | none => { source := none, medium := none, campaign := none }

/-- The all-null attribution result. -/
def nullAttribution : AttributionResult :=
  { source := none, medium := none, campaign := none }

/-- Embeds the phone-number normalization of checkPhoneNumberInCTM:
phoneNumber.replace of every non-digit character by the empty string,
scanning left to right and keeping digits in order. -/
def stripNonDigits : List Char → List Char
  | [] => []
  | c :: cs => if c.isDigit then c :: stripNonDigits cs else stripNonDigits cs

/-- Normalized contact number: the input with all non-digit characters
removed. -/
def normalizePhone (s : String) : String :=
  String.mk (stripNonDigits s.data)

/-- The filter string the CTM search request carries, built from the
normalized contact number as in the source template literal. -/
def ctmFilter (phoneNumber : String) : String :=
  "contact_number:\"" ++ normalizePhone phoneNumber ++ "\""

/-- Outcome of one outbound HTTP call as the handler observes it: either a
response value or a thrown error carrying its message text. -/
inductive HttpOutcome (α : Type) where
  | ok (response : α)
  | err (msg : String)
deriving DecidableEq, Repr

/-- The body of a successful CTM search response (response.data): its calls
field may be absent. An absent data object is modelled by wrapping this
structure in Option at the call site. -/
structure CtmResponseData where
  calls : Option (List CallRecord)
deriving DecidableEq, Repr

/-- Embeds checkPhoneNumberInCTM from route.js, with the network response
made explicit. A successful response whose data and data.calls are both
truthy yields the calls array (an empty array is truthy in JavaScript, so
it is returned as is); a successful response without a calls field yields
null; any thrown error is caught, logged and yields null. -/
def checkPhoneNumberInCTM (resp : HttpOutcome (Option CtmResponseData)) :
    Option (List CallRecord) :=
  match resp with
  | .ok (some d) =>
    match d.calls with
    | some cs => some cs
    | none => none
  | .ok none => none
  | .err _ => none

/-- Parameters of the GA4 purchase event, as built by sendToGA4. -/
structure Ga4Params where
  transaction_id : Option String
  value : Option Int
  currency : String
  source : String
  medium : String
  campaign : String
deriving DecidableEq, Repr

/-- One GA4 event: a name and its parameters. -/
structure Ga4Event where
  name : String
  params : Ga4Params
deriving DecidableEq, Repr

/-- The JSON payload sendToGA4 posts to the collection endpoint. -/
structure Ga4Payload where
  client_id : String
  events : List Ga4Event
deriving DecidableEq, Repr

/-- Decimal rendering of a natural number as JavaScript string
interpolation produces it for a non-negative integer: most significant
digit first, no leading zeros (a single zero digit for zero). -/
def natDecimal (n : Nat) : List Char :=
  if _h : n < 10 then [Nat.digitChar n]
  else natDecimal (n / 10) ++ [Nat.digitChar (n % 10)]
termination_by n
decreasing_by exact Nat.div_lt_self (by omega) (by omega)

/-- String form of the decimal rendering, used for the timestamp inside the
GA4 client identifier. -/
def jsNatToString (n : Nat) : String :=
  String.mk (natDecimal n)

/-- The client identifier sendToGA4 generates: a fixed prefix concatenated
with the current time in milliseconds. -/
def clientId (now : Nat) : String :=
  "12345678." ++ jsNatToString now

/-- Embeds sendToGA4 from route.js, with the clock (Date.now in
milliseconds) and the network response made explicit. Returns the payload
it posts together with the outcome the caller sees: the response status on
success, and the propagated error on failure (the catch block logs and
rethrows). -/
def sendToGA4 (now : Nat) (transactionId : Option String) (revenue : Option Int)
    (source medium campaign : Option String) (resp : HttpOutcome Nat) :
    Ga4Payload × Except String Nat :=
  let payload : Ga4Payload :=
    { client_id := clientId now
      events :=
        [{ name := "phone_purchase"
           params :=
             { transaction_id := transactionId
               value := revenue
               currency := "USD"
               source := jsOrDefault source "unknown"
               medium := jsOrDefault medium "unknown"
               campaign := jsOrDefault campaign "unknown" } }] }
  match resp with
  | .ok status => (payload, .ok status)
  | .err m => (payload, .error m)

/-- A minimal JSON value type, enough to state the response bodies the
handler produces literally. -/
inductive JVal where
  | jstr (s : String)
  | jnum (n : Int)
  | jnull
  | jobj (fields : List (String × JVal))

/-- An HTTP response as the handler returns it: a status code and an
optional JSON body (none models the empty 204 body). -/
structure HttpResponse where
  status : Nat
  body : Option JVal

/-- The inbound webhook body after JSON parsing: each field may be absent.
Absent and null string fields are both modelled as none, and the empty
string stays a present falsy value, matching the truthiness tests of the
handler. -/
structure WebhookPayload where
  phoneNumber : Option String
  transactionId : Option String
  totalAmountExcludingTax : Option Int
deriving DecidableEq, Repr

/-- Record of the outbound calls one handler invocation performed: the CTM
search filter if CTM was contacted, and the GA4 payload if GA4 was
contacted. -/
structure Trace where
  ctmRequest : Option String
  ga4Request : Option Ga4Payload
deriving DecidableEq, Repr

/-- Embeds the POST handler of route.js. The world is made explicit:
the result of request.json (a parsed payload or a thrown parse error), the
CTM network outcome, the clock value at the GA4 send, and the GA4 network
outcome. Returns the HTTP response and the trace of outbound calls.
The catch block turns any thrown error (the JSON parse failure or the
rethrown GA4 failure) into a 500 response carrying the error message. -/
def POST (body : Except String WebhookPayload)
    (ctmResp : HttpOutcome (Option CtmResponseData)) (now : Nat)
    (ga4Resp : HttpOutcome Nat) : HttpResponse × Trace :=
  match body with
  | .error e =>
    ({ status := 500
       body := some (.jobj [("message", .jstr "Internal Server Error"), ("error", .jstr e)]) },
     { ctmRequest := none, ga4Request := none })
  | .ok webhookData =>
    if strTruthy webhookData.phoneNumber = false then
      ({ status := 404, body := some (.jobj [("message", .jstr "No phone number found")]) },
       { ctmRequest := none, ga4Request := none })
    else
      let phoneNumber := webhookData.phoneNumber.getD ""
      let ctmTrace := some (ctmFilter phoneNumber)
      match checkPhoneNumberInCTM ctmResp with
      | none =>
        ({ status := 204, body := none }, { ctmRequest := ctmTrace, ga4Request := none })
      | some ctmData =>
        if ctmData.length = 0 then
          ({ status := 204, body := none }, { ctmRequest := ctmTrace, ga4Request := none })
        else
          let attribution := determineAttribution (some ctmData)
          let sent := sendToGA4 now webhookData.transactionId
            webhookData.totalAmountExcludingTax attribution.source attribution.medium
            attribution.campaign ga4Resp
          match sent.2 with
          | .ok ga4Status =>
            ({ status := 200
               body := some (.jobj [("message", .jstr "Data successfully sent to GA4"),
                 ("ga4Status", .jnum ga4Status)]) },
             { ctmRequest := ctmTrace, ga4Request := some sent.1 })
          | .error m =>
            ({ status := 500
               body := some (.jobj [("message", .jstr "Internal Server Error"),
                 ("error", .jstr m)]) },
             { ctmRequest := ctmTrace, ga4Request := some sent.1 })

/-! ## Helper lemmas -/

theorem determineAttribution_loop_eq_find (l : List CallRecord) :
    determineAttribution.loop l =
      (match l.find? qualifies with
       | some c => extractAttribution c
       | none => nullAttribution) := by
  induction l with
  | nil => rfl
  | cons c rest ih =>
    cases hp : c.paid with
    | none =>
      have hq : ¬ (qualifies c = true) := by simp [qualifies, hp]
      simp only [determineAttribution.loop, hp, List.find?_cons_of_neg _ hq]
      exact ih
    | some p =>
      by_cases hs : strTruthy p.source = true
      · have hq : qualifies c = true := by simp only [qualifies, hp]; exact hs
        simp only [determineAttribution.loop, hp, if_pos hs, List.find?_cons_of_pos _ hq]
        simp [extractAttribution, hp]
      · have hq : ¬ (qualifies c = true) := by simp only [qualifies, hp]; exact hs
        simp only [determineAttribution.loop, hp, if_neg hs, List.find?_cons_of_neg _ hq]
        exact ih

theorem stripNonDigits_eq_filter (l : List Char) :
    stripNonDigits l = l.filter Char.isDigit := by
  induction l with
  | nil => rfl
  | cons c cs ih =>
    unfold stripNonDigits
    by_cases hd : c.isDigit <;> simp [hd, ih, List.filter_cons]

theorem natDecimal_ne_nil (n : Nat) : natDecimal n ≠ [] := by
  unfold natDecimal
  by_cases h : n < 10 <;> simp [h]

theorem digitChar_injOn (a b : Nat) (ha : a < 10) (hb : b < 10)
    (h : Nat.digitChar a = Nat.digitChar b) : a = b := by
  interval_cases a <;> interval_cases b <;> first | rfl | (exact absurd h (by decide))

theorem natDecimal_lt (k : Nat) (hk : k < 10) : natDecimal k = [Nat.digitChar k] := by
  rw [natDecimal]
  simp [hk]

theorem natDecimal_ge (k : Nat) (hk : ¬ k < 10) :
    natDecimal k = natDecimal (k / 10) ++ [Nat.digitChar (k % 10)] := by
  rw [natDecimal]
  simp [hk]

theorem natDecimal_injective (m : Nat) : ∀ n : Nat, natDecimal m = natDecimal n → m = n := by
  induction m using Nat.strong_induction_on with
  | _ m ih =>
    intro n h
    by_cases hm : m < 10 <;> by_cases hn : n < 10
    · rw [natDecimal_lt m hm, natDecimal_lt n hn] at h
      injection h with h1 _
      exact digitChar_injOn m n hm hn h1
    · rw [natDecimal_lt m hm, natDecimal_ge n hn] at h
      have hlen := congrArg List.length h
      simp only [List.length_append, List.length_cons, List.length_nil] at hlen
      have h0 : (natDecimal (n / 10)).length = 0 := by omega
      exact absurd (List.length_eq_zero.mp h0) (natDecimal_ne_nil _)
    · rw [natDecimal_ge m hm, natDecimal_lt n hn] at h
      have hlen := congrArg List.length h
      simp only [List.length_append, List.length_cons, List.length_nil] at hlen
      have h0 : (natDecimal (m / 10)).length = 0 := by omega
      exact absurd (List.length_eq_zero.mp h0) (natDecimal_ne_nil _)
    · rw [natDecimal_ge m hm, natDecimal_ge n hn] at h
      have hrev := congrArg List.reverse h
      simp only [List.reverse_append, List.reverse_cons, List.reverse_nil,
        List.nil_append, List.cons_append] at hrev
      injection hrev with h1 h2
      have hmod : m % 10 = n % 10 :=
        digitChar_injOn _ _ (Nat.mod_lt _ (by omega)) (Nat.mod_lt _ (by omega)) h1
      have hdiv : m / 10 = n / 10 :=
        ih (m / 10) (Nat.div_lt_self (by omega) (by omega)) (n / 10)
          (List.reverse_injective h2)
      omega

theorem clientId_injective (t u : Nat) (h : clientId t = clientId u) : t = u := by
  unfold clientId jsNatToString at h
  have hd := congrArg String.data h
  simp only [String.data_append] at hd
  exact natDecimal_injective t u (List.append_cancel_left hd)

/-! ## Claim theorems -/

/-- C1: determineAttribution returns the source, medium and campaign of the
first record (in the given order) whose paid.source is present and
non-empty, with campaign replaced by null when not set on that record; on
an absent input, an empty list, or a list with no qualifying record it
returns the all-null triple. Purity is inherent in the embedding: the
function depends on nothing but its argument. -/
theorem determineAttribution_first_qualifying (calls : Option (List CallRecord)) :
    determineAttribution calls =
      (match calls with
       | none => nullAttribution
       | some l =>
         match l.find? qualifies with
         | some c => extractAttribution c
         | none => nullAttribution) := by
  cases calls with
  | none => rfl
  | some l => exact determineAttribution_loop_eq_find l

/-- C2: when the payload carries a truthy phoneNumber and the CTM lookup
yields an absent result or an empty calls list, the handler responds 204
with an empty body and GA4 is never invoked; a thrown CTM error is
recovered locally into the absent result, so it is covered by the same
statement. -/
theorem post_no_ctm_match_204 (wd : WebhookPayload)
    (hp : strTruthy wd.phoneNumber = true)
    (ctmResp : HttpOutcome (Option CtmResponseData))
    (hc : checkPhoneNumberInCTM ctmResp = none ∨ checkPhoneNumberInCTM ctmResp = some [])
    (now : Nat) (ga4Resp : HttpOutcome Nat) :
    ((POST (Except.ok wd) ctmResp now ga4Resp).1 = { status := 204, body := none } ∧
      (POST (Except.ok wd) ctmResp now ga4Resp).2.ga4Request = none) ∧
    (∀ m : String, checkPhoneNumberInCTM (HttpOutcome.err m) = none) := by
  refine ⟨?_, fun m => rfl⟩
  cases hc with
  | inl h => constructor <;> simp [POST, hp, h]
  | inr h => constructor <;> simp [POST, hp, h]

/-- Witness for C2 at a concrete input: the CTM call throws a transport
error, the handler answers 204 with no body and no GA4 request. -/
theorem post_no_ctm_match_204_witness :
    strTruthy (some "5551234567") = true ∧
    (checkPhoneNumberInCTM (HttpOutcome.err "connect ECONNREFUSED") = none ∨
      checkPhoneNumberInCTM (HttpOutcome.err "connect ECONNREFUSED") = some []) ∧
    (((POST (Except.ok ⟨some "5551234567", some "T1", some 100⟩)
        (HttpOutcome.err "connect ECONNREFUSED") 0 (HttpOutcome.ok 200)).1 =
        { status := 204, body := none } ∧
      (POST (Except.ok ⟨some "5551234567", some "T1", some 100⟩)
        (HttpOutcome.err "connect ECONNREFUSED") 0 (HttpOutcome.ok 200)).2.ga4Request = none) ∧
    (∀ m : String, checkPhoneNumberInCTM (HttpOutcome.err m) = none)) :=
  ⟨by decide, Or.inl (by decide),
    post_no_ctm_match_204 _ (by decide) _ (Or.inl (by decide)) 0 _⟩

/-- C3: a GA4 failure is propagated by sendToGA4 to its caller, and the
handler then responds 500 with the generic message and the error text; the
body is exactly that object, so the successful CTM result is not reflected
in the response. -/
theorem ga4_failure_propagates_500 (wd : WebhookPayload)
    (hp : strTruthy wd.phoneNumber = true)
    (ctmResp : HttpOutcome (Option CtmResponseData)) (cs : List CallRecord)
    (hc : checkPhoneNumberInCTM ctmResp = some cs) (hne : cs ≠ [])
    (now : Nat) (msg : String) :
    (∀ (tid : Option String) (rev : Option Int) (s m c : Option String),
      (sendToGA4 now tid rev s m c (HttpOutcome.err msg)).2 = Except.error msg) ∧
    (POST (Except.ok wd) ctmResp now (HttpOutcome.err msg)).1 =
      { status := 500,
        body := some (JVal.jobj [("message", JVal.jstr "Internal Server Error"),
          ("error", JVal.jstr msg)]) } := by
  refine ⟨fun tid rev s m c => rfl, ?_⟩
  have hlen : ¬ cs.length = 0 := by simpa [List.length_eq_zero] using hne
  simp [POST, hp, hc, hlen, sendToGA4]

/-- Witness for C3 at a concrete input: one qualifying CTM record, GA4
throws, the handler answers 500 carrying the GA4 error message. -/
theorem ga4_failure_propagates_500_witness :
    strTruthy (some "5551234567") = true ∧
    checkPhoneNumberInCTM
        (HttpOutcome.ok (some ⟨some [⟨some ⟨some "google", some "cpc", none⟩⟩]⟩)) =
      some [⟨some ⟨some "google", some "cpc", none⟩⟩] ∧
    ([(⟨some ⟨some "google", some "cpc", none⟩⟩ : CallRecord)] ≠ []) ∧
    ((∀ (tid : Option String) (rev : Option Int) (s m c : Option String),
      (sendToGA4 7 tid rev s m c (HttpOutcome.err "Request failed with status code 403")).2 =
        Except.error "Request failed with status code 403") ∧
    (POST (Except.ok ⟨some "5551234567", some "T1", some 100⟩)
      (HttpOutcome.ok (some ⟨some [⟨some ⟨some "google", some "cpc", none⟩⟩]⟩))
      7 (HttpOutcome.err "Request failed with status code 403")).1 =
      { status := 500,
        body := some (JVal.jobj [("message", JVal.jstr "Internal Server Error"),
          ("error", JVal.jstr "Request failed with status code 403")]) }) :=
  ⟨by decide, by decide, by decide,
    ga4_failure_propagates_500 _ (by decide) _
      [⟨some ⟨some "google", some "cpc", none⟩⟩] (by decide) (by decide) 7
      "Request failed with status code 403"⟩

/-- C4: a payload without a phoneNumber yields a 404 response with the
descriptive message, and the trace shows no outbound call to CTM or GA4. -/
theorem post_missing_phone_404 (wd : WebhookPayload) (hp : wd.phoneNumber = none)
    (ctmResp : HttpOutcome (Option CtmResponseData)) (now : Nat)
    (ga4Resp : HttpOutcome Nat) :
    POST (Except.ok wd) ctmResp now ga4Resp =
      ({ status := 404,
         body := some (JVal.jobj [("message", JVal.jstr "No phone number found")]) },
       { ctmRequest := none, ga4Request := none }) := by
  simp [POST, hp, strTruthy]

/-- Witness for C4 at a concrete input. -/
theorem post_missing_phone_404_witness :
    (⟨none, some "T1", some 100⟩ : WebhookPayload).phoneNumber = none ∧
    POST (Except.ok ⟨none, some "T1", some 100⟩)
      (HttpOutcome.ok none) 0 (HttpOutcome.ok 200) =
      ({ status := 404,
         body := some (JVal.jobj [("message", JVal.jstr "No phone number found")]) },
       { ctmRequest := none, ga4Request := none }) :=
  ⟨rfl, post_missing_phone_404 _ rfl _ 0 _⟩

/-- C5: sendToGA4 builds exactly one event named phone_purchase whose
params carry the given transaction id, the revenue as value, the fixed
currency USD, and the three attribution fields with falsy values replaced
by the literal unknown; the client identifier is the fixed prefix
concatenated with the current time in milliseconds, computed afresh from
the clock value of this send. -/
theorem sendToGA4_builds_single_event (now : Nat) (tid : Option String)
    (rev : Option Int) (s m c : Option String) (resp : HttpOutcome Nat) :
    (sendToGA4 now tid rev s m c resp).1 =
      { client_id := clientId now
        events := [{ name := "phone_purchase"
                     params := { transaction_id := tid, value := rev, currency := "USD",
                                 source := jsOrDefault s "unknown",
                                 medium := jsOrDefault m "unknown",
                                 campaign := jsOrDefault c "unknown" } }] } ∧
    (∀ d : String, jsOrDefault none d = d) ∧
    clientId now = "12345678." ++ jsNatToString now := by
  refine ⟨?_, fun d => rfl, rfl⟩
  cases resp <;> rfl

/-- C6: when CTM returns at least one record and GA4 succeeds with status
code st, the handler responds 200 with the success message and ga4Status
equal to st. -/
theorem post_success_200 (wd : WebhookPayload) (hp : strTruthy wd.phoneNumber = true)
    (ctmResp : HttpOutcome (Option CtmResponseData)) (cs : List CallRecord)
    (hc : checkPhoneNumberInCTM ctmResp = some cs) (hne : cs ≠ [])
    (now : Nat) (st : Nat) :
    (POST (Except.ok wd) ctmResp now (HttpOutcome.ok st)).1 =
      { status := 200,
        body := some (JVal.jobj [("message", JVal.jstr "Data successfully sent to GA4"),
          ("ga4Status", JVal.jnum st)]) } := by
  have hlen : ¬ cs.length = 0 := by simpa [List.length_eq_zero] using hne
  simp [POST, hp, hc, hlen, sendToGA4]

/-- Witness for C6 at a concrete input: one CTM record with paid source
bing and medium organic, GA4 answers 204 No Content, the handler responds
200 echoing that status. -/
theorem post_success_200_witness :
    strTruthy (some "5551234567") = true ∧
    checkPhoneNumberInCTM
        (HttpOutcome.ok (some ⟨some [⟨some ⟨some "bing", some "organic", none⟩⟩]⟩)) =
      some [⟨some ⟨some "bing", some "organic", none⟩⟩] ∧
    ([(⟨some ⟨some "bing", some "organic", none⟩⟩ : CallRecord)] ≠ []) ∧
    (POST (Except.ok ⟨some "5551234567", some "T1", some 100⟩)
      (HttpOutcome.ok (some ⟨some [⟨some ⟨some "bing", some "organic", none⟩⟩]⟩))
      3 (HttpOutcome.ok 204)).1 =
      { status := 200,
        body := some (JVal.jobj [("message", JVal.jstr "Data successfully sent to GA4"),
          ("ga4Status", JVal.jnum 204)]) } :=
  ⟨by decide, by decide, by decide,
    post_success_200 _ (by decide) _
      [⟨some ⟨some "bing", some "organic", none⟩⟩] (by decide) (by decide) 3 204⟩

/-- C7: normalization removes every non-digit character and keeps the
digits in order, which is exactly filtering the character list by
digithood; the concrete example of the spec evaluates as stated. -/
theorem normalizePhone_strips_non_digits :
    (∀ s : String, (normalizePhone s).data = s.data.filter Char.isDigit) ∧
    normalizePhone "+1 (555) 123-4567" = "15551234567" := by
  refine ⟨fun s => stripNonDigits_eq_filter s.data, ?_⟩
  decide

/-- C8: running the handler twice on the identical payload, with both CTM
lookups returning the same qualifying records, both GA4 sends succeeding,
and the two sends happening at distinct clock values, produces two GA4
payloads whose generated client identifiers differ, because the identifier
is derived injectively from the send-time timestamp. -/
theorem repeat_payload_distinct_client_ids (wd : WebhookPayload)
    (hp : strTruthy wd.phoneNumber = true)
    (ctmResp : HttpOutcome (Option CtmResponseData)) (cs : List CallRecord)
    (hc : checkPhoneNumberInCTM ctmResp = some cs) (hne : cs ≠ [])
    (t1 t2 : Nat) (ht : t1 ≠ t2) (st1 st2 : Nat) :
    ∃ p1 p2 : Ga4Payload,
      (POST (Except.ok wd) ctmResp t1 (HttpOutcome.ok st1)).2.ga4Request = some p1 ∧
      (POST (Except.ok wd) ctmResp t2 (HttpOutcome.ok st2)).2.ga4Request = some p2 ∧
      p1.client_id ≠ p2.client_id := by
  have hlen : ¬ cs.length = 0 := by simpa [List.length_eq_zero] using hne
  refine ⟨(sendToGA4 t1 wd.transactionId wd.totalAmountExcludingTax
      (determineAttribution (some cs)).source (determineAttribution (some cs)).medium
      (determineAttribution (some cs)).campaign (HttpOutcome.ok st1)).1,
    (sendToGA4 t2 wd.transactionId wd.totalAmountExcludingTax
      (determineAttribution (some cs)).source (determineAttribution (some cs)).medium
      (determineAttribution (some cs)).campaign (HttpOutcome.ok st2)).1, ?_, ?_, ?_⟩
  · simp [POST, hp, hc, hlen, sendToGA4]
  · simp [POST, hp, hc, hlen, sendToGA4]
  · intro hEq
    exact ht (clientId_injective t1 t2 hEq)

/-- Witness for C8 at a concrete input: the same payload processed at
clock values 1000 and 1001 yields two GA4 payloads with distinct client
identifiers. -/
theorem repeat_payload_distinct_client_ids_witness :
    strTruthy (some "5551234567") = true ∧
    checkPhoneNumberInCTM
        (HttpOutcome.ok (some ⟨some [⟨some ⟨some "google", some "cpc", some "brand"⟩⟩]⟩)) =
      some [⟨some ⟨some "google", some "cpc", some "brand"⟩⟩] ∧
    ([(⟨some ⟨some "google", some "cpc", some "brand"⟩⟩ : CallRecord)] ≠ []) ∧
    ((1000 : Nat) ≠ 1001) ∧
    (∃ p1 p2 : Ga4Payload,
      (POST (Except.ok ⟨some "5551234567", some "T1", some 100⟩)
        (HttpOutcome.ok (some ⟨some [⟨some ⟨some "google", some "cpc", some "brand"⟩⟩]⟩))
        1000 (HttpOutcome.ok 204)).2.ga4Request = some p1 ∧
      (POST (Except.ok ⟨some "5551234567", some "T1", some 100⟩)
        (HttpOutcome.ok (some ⟨some [⟨some ⟨some "google", some "cpc", some "brand"⟩⟩]⟩))
        1001 (HttpOutcome.ok 204)).2.ga4Request = some p2 ∧
      p1.client_id ≠ p2.client_id) :=
  ⟨by decide, by decide, by decide, by decide,
    repeat_payload_distinct_client_ids _ (by decide) _
      [⟨some ⟨some "google", some "cpc", some "brand"⟩⟩] (by decide) (by decide)
      1000 1001 (by decide) 204 204⟩

/-- C9: a present but falsy phoneNumber, such as the empty string, takes
the same path as a missing one, because the guard tests truthiness: 404
with the descriptive message and no outbound call. -/
theorem post_falsy_phone_404 (wd : WebhookPayload) (hp : wd.phoneNumber = some "")
    (ctmResp : HttpOutcome (Option CtmResponseData)) (now : Nat)
    (ga4Resp : HttpOutcome Nat) :
    POST (Except.ok wd) ctmResp now ga4Resp =
      ({ status := 404,
         body := some (JVal.jobj [("message", JVal.jstr "No phone number found")]) },
       { ctmRequest := none, ga4Request := none }) := by
  simp [POST, hp, strTruthy]

/-- Witness for C9 at a concrete input with phoneNumber equal to the empty
string. -/
theorem post_falsy_phone_404_witness :
    (⟨some "", some "T1", some 100⟩ : WebhookPayload).phoneNumber = some "" ∧
    POST (Except.ok ⟨some "", some "T1", some 100⟩)
      (HttpOutcome.ok none) 0 (HttpOutcome.ok 200) =
      ({ status := 404,
         body := some (JVal.jobj [("message", JVal.jstr "No phone number found")]) },
       { ctmRequest := none, ga4Request := none }) :=
  ⟨rfl, post_falsy_phone_404 _ rfl _ 0 _⟩

/-- C10: when parsing the request body throws, the handler lands in the
catch block before the phoneNumber check: it responds 500 with the generic
message and the parse error text, and no outbound call is made. -/
theorem post_parse_error_500 (e : String)
    (ctmResp : HttpOutcome (Option CtmResponseData)) (now : Nat)
    (ga4Resp : HttpOutcome Nat) :
    POST (Except.error e) ctmResp now ga4Resp =
      ({ status := 500,
         body := some (JVal.jobj [("message", JVal.jstr "Internal Server Error"),
           ("error", JVal.jstr e)]) },
       { ctmRequest := none, ga4Request := none }) := rfl

end ProcessSales
